import Mathlib

/-!
Verification development for the BuffettBot analytical core.

Shallow embedding of the scoring engine (`src/screener.py`), the tier
classifier and movement differ (`src/tier_engine.py`), and the coverage
registry (`src/registry.py`).  Python floats are modelled as rationals
(`ℚ`), Python `None`-able values as `Option`, Python dicts as association
lists in insertion order, and wall-clock instants as integers (one unit
per day).  Division in `ℚ` totalises the Python `/`; every concrete
division the embedded code performs is guarded by the same positivity
tests the source performs, so no behaviour is changed on the guarded
paths.
-/

namespace BuffettBot

/-! ## Metric scoring engine (`src/screener.py`) -/

/-- A single scored metric rule (`screener.ScoringRule`): ideal value,
weight, optional lower cutoff `min` (zero score below, for
higher-is-better metrics) and optional upper cutoff `max` (zero score
above, for lower-is-better metrics). -/
structure ScoringRule where
  ideal : ℚ
  weight : ℚ := 1
  min : Option ℚ := none
  max : Option ℚ := none
deriving DecidableEq

/-- Screening criteria restricted to the fields `score_stock` reads:
the base scoring rules and the per-sector overrides, both dicts in
insertion order (`screener.ScreeningCriteria`). -/
structure ScreeningCriteria where
  scoring : List (String × ScoringRule)
  sector_overrides : List (String × List (String × ScoringRule))
deriving DecidableEq

/-- Per-metric 0–1 score (`screener._compute_metric_score`), branch for
branch.  The `max 0` clamp in the banded case and the branch order
(lower-is-better first, then higher-is-better, then banded, then
boundless) follow the source. -/
def compute_metric_score (value : ℚ) (rule : ScoringRule) : ℚ :=
  match rule.max, rule.min with
  | some mx, none =>
      if value ≤ rule.ideal then 1
      else if value ≥ mx then 0
      else 1 - (value - rule.ideal) / (mx - rule.ideal)
  | none, some mn =>
      if value ≥ rule.ideal then 1
      else if value ≤ mn then 0
      else (value - mn) / (rule.ideal - mn)
  | some mx, some mn =>
      if value ≥ rule.ideal then
        (if value ≤ mx then 1 else max 0 (1 - (value - mx) / mx))
      else if value ≤ mn then 0
      else (value - mn) / (rule.ideal - mn)
  | none, none => if value = rule.ideal then 1 else 1 / 2

/-- The allow-list of recognized metric names (`valid_metrics` in
`score_stock`). -/
def valid_metrics : List String :=
  ["pe_ratio", "debt_equity", "roe", "revenue_growth", "current_ratio",
   "fcf_yield", "earnings_quality", "payout_ratio", "operating_margin",
   "roe_consistency", "roic", "margin_stability", "earnings_consistency",
   "revenue_cagr", "fcf_consistency"]

/-- Python dict assignment `d[k] = v` on an association list: replace in
place when the key is present (keeping its position), append otherwise. -/
def dict_set (l : List (String × ScoringRule)) (k : String) (v : ScoringRule) :
    List (String × ScoringRule) :=
  if l.any (fun p => p.1 == k) then
    l.map (fun p => if p.1 = k then (k, v) else p)
  else l ++ [(k, v)]

/-- The effective rule set built at the top of `score_stock`: a copy of
the base scoring dict, updated with the sector override entries when the
sector string is truthy and present in `sector_overrides`. -/
def effective_scoring (criteria : ScreeningCriteria) (sector : String) :
    List (String × ScoringRule) :=
  if sector ≠ "" then
    match criteria.sector_overrides.lookup sector with
    | some ov => ov.foldl (fun acc p => dict_set acc p.1 p.2) criteria.scoring
    | none => criteria.scoring
  else criteria.scoring

/-- Accumulator of the scoring loop in `score_stock`. -/
structure ScoreState where
  total_score : ℚ
  scored_weight : ℚ
  total_possible_weight : ℚ
deriving DecidableEq

/-- One iteration of the loop `for metric_name, rule in
effective_scoring.items()` in `score_stock`: skip unrecognized names,
always add the weight to `total_possible_weight`, and for a populated
value (after the `debt_equity > 5` percent normalization) accumulate the
weighted per-metric score and the scored weight. -/
def score_stock_step (data : String → Option ℚ) (st : ScoreState)
    (entry : String × ScoringRule) : ScoreState :=
  if entry.1 ∈ valid_metrics then
    let tpw := st.total_possible_weight + entry.2.weight
    match data entry.1 with
    | none => { st with total_possible_weight := tpw }
    | some v0 =>
        let v := if entry.1 = "debt_equity" ∧ 5 < v0 then v0 / 100 else v0
        { total_score := st.total_score + compute_metric_score v entry.2 * entry.2.weight
          scored_weight := st.scored_weight + entry.2.weight
          total_possible_weight := tpw }
  else st

/-- `screener.score_stock`: returns `(total_score, confidence)`;
`(0, 0)` immediately when the base scoring dict is empty, and otherwise
confidence is `scored_weight / total_possible_weight` when the latter is
positive, else `0`.  The metrics dict is modelled by its `.get` view
`String → Option ℚ`. -/
def score_stock (data : String → Option ℚ) (criteria : ScreeningCriteria)
    (sector : String) : ℚ × ℚ :=
  if criteria.scoring = [] then (0, 0)
  else
    let st := (effective_scoring criteria sector).foldl (score_stock_step data) ⟨0, 0, 0⟩
    let confidence :=
      if 0 < st.total_possible_weight then st.scored_weight / st.total_possible_weight else 0
    (st.total_score, confidence)

/-- The recognized (allow-listed) entries of a rule set. -/
def recognized (l : List (String × ScoringRule)) : List (String × ScoringRule) :=
  l.filter (fun p => decide (p.1 ∈ valid_metrics))

/-- Sum of the weights of all recognized rules. -/
def total_weight (l : List (String × ScoringRule)) : ℚ :=
  ((recognized l).map (fun p => p.2.weight)).sum

/-- Sum of the weights of the recognized rules whose metric value is
populated in `data`. -/
def populated_weight (data : String → Option ℚ) (l : List (String × ScoringRule)) : ℚ :=
  (((recognized l).filter (fun p => (data p.1).isSome)).map (fun p => p.2.weight)).sum

/-! ## Tier classifier (`src/tier_engine.py`) -/

/-- Result of tier assignment for a single stock
(`tier_engine.TierAssignment`).  The interpolated price figures inside
the tier-1/tier-2 reason strings are presentation-only and are elided
from the embedded strings; the constant reason strings are kept
verbatim. -/
structure TierAssignment where
  symbol : String
  tier : ℤ
  quality_level : String
  tier_reason : String
  target_entry_price : Option ℚ := none
  current_price : Option ℚ := none
  price_gap_pct : Option ℚ := none
  approaching_target : Bool := false
deriving DecidableEq

/-- The fields of the qualitative analysis object that `assign_tier`
reads: `moat_rating.value` and `conviction_level` as strings, and the
optional price fields. -/
structure AnalysisInput where
  symbol : String
  moat_rating : String
  conviction_level : String
  target_entry_price : Option ℚ := none
  current_price : Option ℚ := none
deriving DecidableEq

/-- The fields of the external `AggregatedValuation` that `assign_tier`
reads. -/
structure AggregatedValuation where
  average_fair_value : Option ℚ := none
  current_price : Option ℚ := none
deriving DecidableEq

/-- `config.margin_of_safety_pct` at its default (`25 / 100`). -/
def margin_of_safety_pct : ℚ := 25 / 100

/-- `config.tier1_proximity_alert_pct` at its default (`10 / 100`). -/
def tier1_proximity_alert_pct : ℚ := 10 / 100

/-- Quality level computed at the top of `assign_tier` from the moat
rating and conviction strings. -/
def quality_of (analysis : AnalysisInput) : String :=
  if (analysis.moat_rating = "wide" ∨ analysis.moat_rating = "narrow") ∧
      (analysis.conviction_level = "HIGH" ∨ analysis.conviction_level = "MEDIUM") then "high"
  else if analysis.moat_rating = "none" ∧ analysis.conviction_level = "LOW" then "low"
  else "moderate"

/-- Target entry price after the fallback in the high-quality branch of
`assign_tier`: the assessment's value if present, else
`average_fair_value * (1 - margin_of_safety_pct)` when the external
valuation is present and its fair value truthy (non-null and nonzero). -/
def resolve_target (analysis : AnalysisInput)
    (external_valuation : Option AggregatedValuation) : Option ℚ :=
  match analysis.target_entry_price, external_valuation with
  | none, some ev =>
      match ev.average_fair_value with
      | some fv => if fv ≠ 0 then some (fv * (1 - margin_of_safety_pct)) else none
      | none => none
  | t, _ => t

/-- Current price after the fallback used by both the moderate and high
branches of `assign_tier`: the assessment's value if present, else the
external valuation's current price. -/
def resolve_current (analysis : AnalysisInput)
    (external_valuation : Option AggregatedValuation) : Option ℚ :=
  match analysis.current_price, external_valuation with
  | none, some ev => ev.current_price
  | c, _ => c

/-- `tier_engine.assign_tier`.  The `screener_score` argument is unused
by the source body and kept for signature fidelity.  The price branch
guard models Python truthiness of `if target and current and target > 0`
(so a resolved price equal to `0` is falsy and falls through to the
"price target unavailable" default). -/
def assign_tier (analysis : AnalysisInput) (screener_score : ℚ)
    (external_valuation : Option AggregatedValuation)
    (proximity_alert_pct : ℚ) : TierAssignment :=
  let quality := quality_of analysis
  if quality = "low" then
    { symbol := analysis.symbol, tier := 0, quality_level := quality
      tier_reason := "Low quality: weak moat and low conviction" }
  else if quality = "moderate" then
    { symbol := analysis.symbol, tier := 3, quality_level := quality
      tier_reason := "Moderate quality: " ++ analysis.moat_rating ++ " moat, "
        ++ analysis.conviction_level ++ " conviction"
      target_entry_price := analysis.target_entry_price
      current_price := resolve_current analysis external_valuation }
  else
    let target := resolve_target analysis external_valuation
    let current := resolve_current analysis external_valuation
    let priced : Option TierAssignment :=
      match target, current with
      | some t, some c =>
          if t ≠ 0 ∧ c ≠ 0 ∧ 0 < t then
            let price_gap := (c - t) / t
            let approaching := decide (0 < price_gap ∧ price_gap ≤ proximity_alert_pct)
            if c ≤ t then
              some { symbol := analysis.symbol, tier := 1, quality_level := quality
                     tier_reason := "High quality at/below target entry"
                     target_entry_price := some t, current_price := some c
                     price_gap_pct := some price_gap, approaching_target := false }
            else
              some { symbol := analysis.symbol, tier := 2, quality_level := quality
                     tier_reason := "High quality but above target"
                     target_entry_price := some t, current_price := some c
                     price_gap_pct := some price_gap, approaching_target := approaching }
          else none
      | _, _ => none
    match priced with
    | some ta => ta
    | none =>
        { symbol := analysis.symbol, tier := 2, quality_level := quality
          tier_reason := "High quality, price target unavailable"
          target_entry_price := target, current_price := current }

/-! ## Movement differ (`tier_engine.compute_movements`) -/

/-- A change in the watchlist since the last run
(`tier_engine.WatchlistMovement`).  The interpolated percentage in the
"approaching" detail string is presentation-only and elided. -/
structure WatchlistMovement where
  symbol : String
  change_type : String
  detail : String
  previous_tier : Option ℤ := none
  current_tier : Option ℤ := none
deriving DecidableEq

/-- One entry of the previous snapshot's `stocks` mapping; the fields are
`Option`-valued because the source reads them with `.get(..., default)`. -/
structure PrevStock where
  tier : Option ℤ := none
  approaching : Option Bool := none
deriving DecidableEq

/-- The previous watchlist state as read back from disk: its `stocks`
mapping (`previous_state.get("stocks", {})`). -/
structure WatchlistState where
  stocks : List (String × PrevStock)
deriving DecidableEq

/-- Loop body of the first pass of `compute_movements`, translating the
`for symbol, tier in current_tiers.items()` body: skip tier 0, emit
"new" for symbols absent from the previous snapshot, otherwise emit a
tier_up/tier_down event on a tier change and an "approaching" event when
`approaching_target` holds now but not before. -/
def current_step (prev_stocks : List (String × PrevStock))
    (movements : List WatchlistMovement) (p : String × TierAssignment) :
    List WatchlistMovement :=
  let symbol := p.1
  let tier := p.2
  if tier.tier = 0 then movements
  else
    match prev_stocks.lookup symbol with
    | none =>
        movements ++ [{ symbol := symbol, change_type := "new"
                        detail := "New Tier " ++ toString tier.tier ++ " entry"
                        current_tier := some tier.tier }]
    | some prev_data =>
        let prev_tier := prev_data.tier.getD 0
        let movements :=
          if tier.tier < prev_tier then
            movements ++ [{ symbol := symbol, change_type := "tier_up"
                            detail := "Upgraded Tier " ++ toString prev_tier
                              ++ " -> Tier " ++ toString tier.tier
                            previous_tier := some prev_tier, current_tier := some tier.tier }]
          else if prev_tier < tier.tier then
            movements ++ [{ symbol := symbol, change_type := "tier_down"
                            detail := "Downgraded Tier " ++ toString prev_tier
                              ++ " -> Tier " ++ toString tier.tier
                            previous_tier := some prev_tier, current_tier := some tier.tier }]
          else movements
        if tier.approaching_target && !(prev_data.approaching.getD false) then
          movements ++ [{ symbol := symbol, change_type := "approaching"
                          detail := if tier.price_gap_pct.getD 0 ≠ 0 then
                              "Approaching target entry"
                            else "Approaching target entry price"
                          current_tier := some tier.tier }]
        else movements

/-- Loop body of the removed-entries pass of `compute_movements`: emit
"removed" for previous symbols absent from `current_tiers` or present
with tier 0. -/
def removed_step (current_tiers : List (String × TierAssignment))
    (movements : List WatchlistMovement) (q : String × PrevStock) :
    List WatchlistMovement :=
  let gone :=
    match current_tiers.lookup q.1 with
    | none => true
    | some t => t.tier = 0
  if gone then
    movements ++ [{ symbol := q.1, change_type := "removed"
                    detail := "Removed (was Tier "
                      ++ (match q.2.tier with | some t => toString t | none => "?") ++ ")"
                    previous_tier := q.2.tier }]
  else movements

/-- `tier_engine.compute_movements`: the current-symbol pass followed by
the removed-symbol pass, both accumulating into one list. -/
def compute_movements (current_tiers : List (String × TierAssignment))
    (previous_state : WatchlistState) : List WatchlistMovement :=
  let prev_stocks := previous_state.stocks
  let movements := current_tiers.foldl (current_step prev_stocks) []
  prev_stocks.foldl (removed_step current_tiers) movements

/-- The movements the specification's wording emits for one symbol of the
current mapping (used only to compare `compute_movements` against the
spec's description). -/
def spec_current_events (prev_stocks : List (String × PrevStock))
    (p : String × TierAssignment) : List WatchlistMovement :=
  if p.2.tier = 0 then []
  else
    match prev_stocks.lookup p.1 with
    | none =>
        [{ symbol := p.1, change_type := "new"
           detail := "New Tier " ++ toString p.2.tier ++ " entry"
           current_tier := some p.2.tier }]
    | some prev_data =>
        let prev_tier := prev_data.tier.getD 0
        (if p.2.tier < prev_tier then
          [{ symbol := p.1, change_type := "tier_up"
             detail := "Upgraded Tier " ++ toString prev_tier
               ++ " -> Tier " ++ toString p.2.tier
             previous_tier := some prev_tier, current_tier := some p.2.tier }]
        else if prev_tier < p.2.tier then
          [{ symbol := p.1, change_type := "tier_down"
             detail := "Downgraded Tier " ++ toString prev_tier
               ++ " -> Tier " ++ toString p.2.tier
             previous_tier := some prev_tier, current_tier := some p.2.tier }]
        else []) ++
        (if p.2.approaching_target && !(prev_data.approaching.getD false) then
          [{ symbol := p.1, change_type := "approaching"
             detail := if p.2.price_gap_pct.getD 0 ≠ 0 then
                 "Approaching target entry"
               else "Approaching target entry price"
             current_tier := some p.2.tier }]
        else [])

/-- The "removed" movement the specification's wording emits for one
symbol of the previous snapshot. -/
def spec_removed_events (current_tiers : List (String × TierAssignment))
    (q : String × PrevStock) : List WatchlistMovement :=
  let gone :=
    match current_tiers.lookup q.1 with
    | none => true
    | some t => t.tier = 0
  if gone then
    [{ symbol := q.1, change_type := "removed"
       detail := "Removed (was Tier "
         ++ (match q.2.tier with | some t => toString t | none => "?") ++ ")"
       previous_tier := q.2.tier }]
  else []

/-- The movement sequence as the specification words it: per-symbol
emissions over the current mapping in iteration order, followed by the
per-symbol removed emissions over the previous snapshot. -/
def compute_movements_spec (current_tiers : List (String × TierAssignment))
    (previous_state : WatchlistState) : List WatchlistMovement :=
  current_tiers.flatMap (spec_current_events previous_state.stocks) ++
    previous_state.stocks.flatMap (spec_removed_events current_tiers)

/-! ## Coverage registry (`src/registry.py`)

Wall-clock instants are integers counted in days.  The ISO timestamp
strings stored in `haiku_failed` are modelled as `Option ℤ`: `some t`
for a string `datetime.fromisoformat` parses to instant `t`, `none` for
an unparseable one (which the source treats as expired). -/

/-- The campaign sub-document of the registry
(`Registry._empty_registry`'s `campaign` shape, after the one-time
migration of the legacy list form of `haiku_failed` to the
symbol-to-timestamp mapping form). -/
structure CampaignState where
  campaign_id : String
  started_at : ℤ
  haiku_screened : List String
  haiku_passed : List String
  haiku_failed : List (String × Option ℤ)
  analyzed : List String
deriving DecidableEq

/-- `Registry.should_start_new_campaign`: false for a non-positive
universe size, else true iff the screened fraction strictly exceeds
0.90. -/
def should_start_new_campaign (campaign : CampaignState) (universe_size : ℤ) : Bool :=
  if universe_size ≤ 0 then false
  else decide ((9 : ℚ) / 10 < (campaign.haiku_screened.length : ℚ) / (universe_size : ℚ))

/-- Sort a list of symbols ascending (`sorted` on the carried keys). -/
def sort_symbols (l : List String) : List String :=
  l.mergeSort (fun a b => a ≤ b)

/-- `Registry.start_new_campaign`.  `now` is the current instant and
`now_quarter` the quarter id `_quarter_id()` renders for it (the
calendar formatting of the id string is outside the model); a collision
with the old campaign id appends `"b"`.  Failures strictly newer than
`now - carry_forward_days` are carried into the new campaign's
`haiku_failed` and `haiku_screened`; unparseable timestamps expire. -/
def start_new_campaign (campaign : CampaignState) (now : ℤ) (now_quarter : String)
    (carry_forward_days : ℤ) : CampaignState :=
  let new_id := if now_quarter = campaign.campaign_id then now_quarter ++ "b" else now_quarter
  let cutoff := now - carry_forward_days
  let carried_failed := campaign.haiku_failed.filter (fun p =>
    match p.2 with
    | some screened_at => decide (cutoff < screened_at)
    | none => false)
  { campaign_id := new_id
    started_at := now
    haiku_screened := sort_symbols (carried_failed.map Prod.fst)
    haiku_passed := []
    haiku_failed := carried_failed
    analyzed := [] }

/-! ### Persistence model

`Registry.save` serializes `self._data` with `json.dump` to a temp file
and atomically renames it over the canonical path; `Registry._load`
parses the file back and keeps the document iff its `version` is `1`.
The spec fixes the persisted format as structural, not byte-exact
(§6), so the disk is modelled as holding the parsed JSON tree: `save`
produces the tree `json.dump` writes, `load` consumes it. -/

/-- JSON values (the trees `json.dump` / `json.loads` exchange). -/
inductive Jv where
  | null : Jv
  | bool : Bool → Jv
  | num : ℚ → Jv
  | str : String → Jv
  | arr : List Jv → Jv
  | obj : List (String × Jv) → Jv

/-- One study entry as built by `Registry.add_study` (the
`assessmentPayload` and `haiku_result` sub-documents are opaque JSON;
the `analyzed_at` ISO string is kept as a string). -/
structure StudyRecord where
  symbol : String
  company_name : String
  sector : String
  analysis : Jv
  tier : ℤ
  tier_reason : String
  target_entry_price : Option ℚ
  current_price_at_analysis : Option ℚ
  analyzed_at : String
  haiku_result : Jv
  screener_score : ℚ
  screener_confidence : ℚ

/-- The registry aggregate `Registry._data` at version 1: the campaign
state and the studies mapping. -/
structure RegistryData where
  campaign : CampaignState
  studies : List (String × StudyRecord)

/-- Encode an optional rational as JSON (`None ↦ null`). -/
def encode_optq : Option ℚ → Jv
  | none => Jv.null
  | some q => Jv.num q

/-- Encode a failure timestamp: a parsed instant back to a number, the
unparseable placeholder to a (canonical) string. -/
def encode_ts : Option ℤ → Jv
  | some t => Jv.num (t : ℚ)
  | none => Jv.str "not-a-timestamp"

/-- Encode the campaign sub-document. -/
def encode_campaign (c : CampaignState) : Jv :=
  Jv.obj
    [("campaign_id", Jv.str c.campaign_id),
     ("started_at", Jv.num (c.started_at : ℚ)),
     ("haiku_screened", Jv.arr (c.haiku_screened.map Jv.str)),
     ("haiku_passed", Jv.arr (c.haiku_passed.map Jv.str)),
     ("haiku_failed", Jv.obj (c.haiku_failed.map (fun p => (p.1, encode_ts p.2)))),
     ("analyzed", Jv.arr (c.analyzed.map Jv.str))]

/-- Encode one study entry (the dict literal in `Registry.add_study`). -/
def encode_study (r : StudyRecord) : Jv :=
  Jv.obj
    [("symbol", Jv.str r.symbol),
     ("company_name", Jv.str r.company_name),
     ("sector", Jv.str r.sector),
     ("analysis", r.analysis),
     ("tier", Jv.num (r.tier : ℚ)),
     ("tier_reason", Jv.str r.tier_reason),
     ("target_entry_price", encode_optq r.target_entry_price),
     ("current_price_at_analysis", encode_optq r.current_price_at_analysis),
     ("analyzed_at", Jv.str r.analyzed_at),
     ("haiku_result", r.haiku_result),
     ("screener_score", Jv.num r.screener_score),
     ("screener_confidence", Jv.num r.screener_confidence)]

/-- `Registry.save`: the JSON document written to disk (version tag 1,
campaign, studies). -/
def registry_save (d : RegistryData) : Jv :=
  Jv.obj
    [("version", Jv.num 1),
     ("campaign", encode_campaign d.campaign),
     ("studies", Jv.obj (d.studies.map (fun p => (p.1, encode_study p.2))))]

/-- Field lookup on a JSON object. -/
def jv_lookup (j : Jv) (k : String) : Option Jv :=
  match j with
  | Jv.obj l => l.lookup k
  | _ => none

/-- Read a JSON string. -/
def as_str : Option Jv → Option String
  | some (Jv.str s) => some s
  | _ => none

/-- Read a JSON integer. -/
def as_int : Option Jv → Option ℤ
  | some (Jv.num q) => if q.den = 1 then some q.num else none
  | _ => none

/-- Read a JSON number. -/
def as_num : Option Jv → Option ℚ
  | some (Jv.num q) => some q
  | _ => none

/-- Read an optional JSON number (`null ↦ none`). -/
def as_optq : Option Jv → Option (Option ℚ)
  | some Jv.null => some none
  | some (Jv.num q) => some (some q)
  | _ => none

/-- Read a list of JSON strings. -/
def decode_str_list : List Jv → Option (List String)
  | [] => some []
  | Jv.str s :: rest => (decode_str_list rest).map (fun l => s :: l)
  | _ => none

/-- Read a JSON array of strings. -/
def as_str_list : Option Jv → Option (List String)
  | some (Jv.arr l) => decode_str_list l
  | _ => none

/-- Read a failure timestamp back: numbers parse, anything else is the
unparseable placeholder. -/
def decode_ts : Jv → Option ℤ
  | Jv.num q => if q.den = 1 then some q.num else none
  | _ => none

/-- Decode the campaign sub-document. -/
def decode_campaign (j : Jv) : Option CampaignState := do
  let campaign_id ← as_str (jv_lookup j "campaign_id")
  let started_at ← as_int (jv_lookup j "started_at")
  let haiku_screened ← as_str_list (jv_lookup j "haiku_screened")
  let haiku_passed ← as_str_list (jv_lookup j "haiku_passed")
  let haiku_failed ←
    match jv_lookup j "haiku_failed" with
    | some (Jv.obj l) => some (l.map (fun p => (p.1, decode_ts p.2)))
    | _ => none
  let analyzed ← as_str_list (jv_lookup j "analyzed")
  pure ⟨campaign_id, started_at, haiku_screened, haiku_passed, haiku_failed, analyzed⟩

/-- Decode one study entry. -/
def decode_study (j : Jv) : Option StudyRecord := do
  let symbol ← as_str (jv_lookup j "symbol")
  let company_name ← as_str (jv_lookup j "company_name")
  let sector ← as_str (jv_lookup j "sector")
  let analysis ← jv_lookup j "analysis"
  let tier ← as_int (jv_lookup j "tier")
  let tier_reason ← as_str (jv_lookup j "tier_reason")
  let target_entry_price ← as_optq (jv_lookup j "target_entry_price")
  let current_price_at_analysis ← as_optq (jv_lookup j "current_price_at_analysis")
  let analyzed_at ← as_str (jv_lookup j "analyzed_at")
  let haiku_result ← jv_lookup j "haiku_result"
  let screener_score ← as_num (jv_lookup j "screener_score")
  let screener_confidence ← as_num (jv_lookup j "screener_confidence")
  pure ⟨symbol, company_name, sector, analysis, tier, tier_reason, target_entry_price,
        current_price_at_analysis, analyzed_at, haiku_result, screener_score,
        screener_confidence⟩

/-- Decode the entries of the studies mapping. -/
def decode_studies : List (String × Jv) → Option (List (String × StudyRecord))
  | [] => some []
  | (k, j) :: rest =>
      (decode_study j).bind (fun r => (decode_studies rest).map (fun l => (k, r) :: l))

/-- Decode the whole registry document. -/
def decode_registry (j : Jv) : Option RegistryData := do
  let campaign ← (jv_lookup j "campaign").bind decode_campaign
  let studies ←
    match jv_lookup j "studies" with
    | some (Jv.obj l) => decode_studies l
    | _ => none
  pure ⟨campaign, studies⟩

/-- `Registry._load` on a readable disk: keep the document iff
`version == 1`, else fall back to a fresh registry (a fresh empty
campaign stamped with the current instant and quarter id). -/
def registry_load (disk : Option Jv) (now : ℤ) (now_quarter : String) : RegistryData :=
  let fresh : RegistryData :=
    { campaign := { campaign_id := now_quarter, started_at := now,
                    haiku_screened := [], haiku_passed := [], haiku_failed := [],
                    analyzed := [] }
      studies := [] }
  match disk with
  | none => fresh
  | some j =>
      match as_int (jv_lookup j "version") with
      | some 1 => (decode_registry j).getD fresh
      | _ => fresh

/-! ## Theorems -/

/-- The quality level is always one of the three literals. -/
theorem quality_of_eq (a : AnalysisInput) :
    quality_of a = "high" ∨ quality_of a = "low" ∨ quality_of a = "moderate" := by
  unfold quality_of
  split
  · exact Or.inl rfl
  split
  · exact Or.inr (Or.inl rfl)
  · exact Or.inr (Or.inr rfl)

/-- C8 counterexample: a banded rule whose ideal lies above its upper
cutoff (`ideal = 2`, `min = 0`, `max = 1`) scores `0`, not `1`, at a
metric value exactly equal to the ideal. -/
theorem c8_counterexample :
    compute_metric_score (2 : ℚ) { ideal := 2, weight := 1, min := some 0, max := some 1 } = 0 ∧
    compute_metric_score (2 : ℚ) { ideal := 2, weight := 1, min := some 0, max := some 1 } ≠ 1 := by
  norm_num [compute_metric_score]

/-- C8 (amended): for every scoring rule whose ideal does not exceed the
upper cutoff whenever both cutoffs are set, the per-metric score at a
value exactly equal to the ideal is `1`. -/
theorem c8_score_at_ideal (rule : ScoringRule)
    (h : ∀ mn mx, rule.min = some mn → rule.max = some mx → rule.ideal ≤ mx) :
    compute_metric_score rule.ideal rule = 1 := by
  rcases hmx : rule.max with _ | mx <;> rcases hmn : rule.min with _ | mn <;>
    simp [compute_metric_score, hmx, hmn]
  intro hlt
  exact absurd (h mn mx hmn hmx) (not_le.mpr hlt)

/-- C8 witness: a concrete well-formed banded rule evaluated at its
ideal. -/
theorem c8_score_at_ideal_witness :
    compute_metric_score (2 : ℚ) { ideal := 2, weight := 1, min := some 0, max := some 3 } = 1 :=
  c8_score_at_ideal { ideal := 2, weight := 1, min := some 0, max := some 3 }
    (by
      intro mn mx _ h2
      injection h2 with h2
      rw [← h2]
      norm_num)

/-- C6: `should_start_new_campaign` is true iff the screened count over
the universe size strictly exceeds 9/10; in particular 451/500 rotates
and 450/500 does not. -/
theorem c6_campaign_rotation_threshold :
    (∀ (c : CampaignState) (u : ℤ),
      should_start_new_campaign c u = true ↔
        (9 : ℚ) / 10 < (c.haiku_screened.length : ℚ) / (u : ℚ)) ∧
    should_start_new_campaign ⟨"2026-Q1", 0, List.replicate 451 "A", [], [], []⟩ 500 = true ∧
    should_start_new_campaign ⟨"2026-Q1", 0, List.replicate 450 "A", [], [], []⟩ 500 = false := by
  refine ⟨fun c u => ?_, by norm_num [should_start_new_campaign],
    by norm_num [should_start_new_campaign]⟩
  unfold should_start_new_campaign
  by_cases h : u ≤ 0
  · rw [if_pos h]
    simp only [Bool.false_eq_true, false_iff, not_lt]
    have hu : (u : ℚ) ≤ 0 := by exact_mod_cast h
    have hn : (0 : ℚ) ≤ (c.haiku_screened.length : ℚ) := by positivity
    have hq : (c.haiku_screened.length : ℚ) / (u : ℚ) ≤ 0 :=
      div_nonpos_iff.mpr (Or.inl ⟨hn, hu⟩)
    linarith
  · rw [if_neg h]
    simp [decide_eq_true_eq]

/-- C9: `compute_movements` is deterministic — two runs on equal inputs
produce equal output sequences. -/
theorem c9_movements_deterministic (c₁ c₂ : List (String × TierAssignment))
    (p₁ p₂ : WatchlistState) (hc : c₁ = c₂) (hp : p₁ = p₂) :
    compute_movements c₁ p₁ = compute_movements c₂ p₂ := by
  rw [hc, hp]

/-- C9 witness: the determinism theorem applied at a concrete input. -/
theorem c9_movements_deterministic_witness :
    ([("AAPL", ({ symbol := "AAPL", tier := 1, quality_level := "high", tier_reason := "r" } : TierAssignment))]
      = [("AAPL", ({ symbol := "AAPL", tier := 1, quality_level := "high", tier_reason := "r" } : TierAssignment))]) ∧
    compute_movements
        [("AAPL", { symbol := "AAPL", tier := 1, quality_level := "high", tier_reason := "r" })]
        ⟨[("MSFT", { tier := some 2, approaching := some false })]⟩
      = compute_movements
        [("AAPL", { symbol := "AAPL", tier := 1, quality_level := "high", tier_reason := "r" })]
        ⟨[("MSFT", { tier := some 2, approaching := some false })]⟩ :=
  ⟨rfl, c9_movements_deterministic _ _ _ _ rfl rfl⟩

/-- C2 counterexample: a high-quality assessment with both prices
resolved (target 100, current 0) and current ≤ target is assigned tier
2 ("price target unavailable" path, since a current price of `0` is
falsy in the source's truthiness guard), not tier 1 as the claim
states. -/
theorem c2_counterexample :
    resolve_target ⟨"X", "wide", "HIGH", some 100, some 0⟩ none = some 100 ∧
    resolve_current ⟨"X", "wide", "HIGH", some 100, some 0⟩ none = some 0 ∧
    quality_of ⟨"X", "wide", "HIGH", some 100, some 0⟩ = "high" ∧
    ((0 : ℚ) ≤ 100) ∧
    (assign_tier ⟨"X", "wide", "HIGH", some 100, some 0⟩ 0 none
      tier1_proximity_alert_pct).tier ≠ 1 ∧
    (assign_tier ⟨"X", "wide", "HIGH", some 100, some 0⟩ 0 none
      tier1_proximity_alert_pct).tier = 2 := by
  refine ⟨rfl, rfl, by simp [quality_of], by norm_num, ?_, ?_⟩ <;>
    simp [assign_tier, quality_of, resolve_target, resolve_current]

/-- C2 (amended): for a high-quality assessment whose resolved target is
positive and whose resolved current price is nonzero, `assign_tier`
returns tier 1 with `approaching_target = false` when current ≤ target,
and tier 2 with `price_gap_pct = (current - target) / target` and
`approaching_target` true iff `0 < gap ≤ proximityPct` when
current > target. -/
theorem c2_price_vs_target (a : AnalysisInput) (sc : ℚ)
    (ev : Option AggregatedValuation) (prox : ℚ) (t c : ℚ)
    (hq : quality_of a = "high")
    (ht : resolve_target a ev = some t)
    (hc : resolve_current a ev = some c)
    (ht0 : 0 < t) (hc0 : c ≠ 0) :
    (c ≤ t →
      (assign_tier a sc ev prox).tier = 1 ∧
      (assign_tier a sc ev prox).approaching_target = false) ∧
    (t < c →
      (assign_tier a sc ev prox).tier = 2 ∧
      (assign_tier a sc ev prox).price_gap_pct = some ((c - t) / t) ∧
      ((assign_tier a sc ev prox).approaching_target = true ↔
        0 < (c - t) / t ∧ (c - t) / t ≤ prox)) := by
  have hguard : t ≠ 0 ∧ c ≠ 0 ∧ 0 < t := ⟨ne_of_gt ht0, hc0, ht0⟩
  constructor
  · intro hle
    simp [assign_tier, hq, ht, hc, hguard, hle]
  · intro hlt
    have : ¬ c ≤ t := not_le.mpr hlt
    simp [assign_tier, hq, ht, hc, hguard, this, decide_eq_true_eq]

/-- C2 witness: the amended branch theorem applied to the two concrete
end-to-end examples of the spec (90 vs 100 → tier 1; 108 vs 100 with
10% proximity → tier 2, gap 8%, approaching). -/
theorem c2_price_vs_target_witness :
    ((assign_tier ⟨"A", "wide", "HIGH", some 100, some 90⟩ 0 none (10 / 100)).tier = 1 ∧
      (assign_tier ⟨"A", "wide", "HIGH", some 100, some 90⟩ 0 none
        (10 / 100)).approaching_target = false) ∧
    ((assign_tier ⟨"B", "wide", "HIGH", some 100, some 108⟩ 0 none (10 / 100)).tier = 2 ∧
      (assign_tier ⟨"B", "wide", "HIGH", some 100, some 108⟩ 0 none
        (10 / 100)).price_gap_pct = some ((108 - 100) / 100) ∧
      ((assign_tier ⟨"B", "wide", "HIGH", some 100, some 108⟩ 0 none
          (10 / 100)).approaching_target = true ↔
        0 < ((108 : ℚ) - 100) / 100 ∧ ((108 : ℚ) - 100) / 100 ≤ 10 / 100)) :=
  ⟨(c2_price_vs_target ⟨"A", "wide", "HIGH", some 100, some 90⟩ 0 none (10 / 100) 100 90
      (by simp [quality_of]) rfl rfl (by norm_num) (by norm_num)).1 (by norm_num),
   (c2_price_vs_target ⟨"B", "wide", "HIGH", some 100, some 108⟩ 0 none (10 / 100) 100 108
      (by simp [quality_of]) rfl rfl (by norm_num) (by norm_num)).2 (by norm_num)⟩

/-- C3: whenever the resolved target or resolved current price is
unavailable, the assigned tier is never 1; a high-quality assessment
with unresolved price data gets tier 2 with the "price target
unavailable" reason. -/
theorem c3_no_tier1_without_price (a : AnalysisInput) (sc : ℚ)
    (ev : Option AggregatedValuation) (prox : ℚ)
    (h : resolve_target a ev = none ∨ resolve_current a ev = none) :
    (assign_tier a sc ev prox).tier ≠ 1 ∧
    (quality_of a = "high" →
      (assign_tier a sc ev prox).tier = 2 ∧
      (assign_tier a sc ev prox).tier_reason = "High quality, price target unavailable") := by
  rcases quality_of_eq a with hq | hq | hq
  · have hta : assign_tier a sc ev prox =
        { symbol := a.symbol, tier := 2, quality_level := "high"
          tier_reason := "High quality, price target unavailable"
          target_entry_price := resolve_target a ev
          current_price := resolve_current a ev } := by
      rcases h with h | h <;> simp [assign_tier, hq, h]
    rw [hta]
    exact ⟨by norm_num, fun _ => ⟨rfl, rfl⟩⟩
  · refine ⟨?_, fun hq' => absurd (hq ▸ hq') (by simp)⟩
    simp [assign_tier, hq]
  · refine ⟨?_, fun hq' => absurd (hq ▸ hq') (by simp)⟩
    simp [assign_tier, hq]

/-- C3 witness: a concrete high-quality assessment with no price data at
all is tier 2 with the unavailable reason. -/
theorem c3_no_tier1_without_price_witness :
    (resolve_target ⟨"C", "wide", "HIGH", none, none⟩ none = none ∨
      resolve_current ⟨"C", "wide", "HIGH", none, none⟩ none = none) ∧
    ((assign_tier ⟨"C", "wide", "HIGH", none, none⟩ 0 none (10 / 100)).tier ≠ 1 ∧
      (quality_of ⟨"C", "wide", "HIGH", none, none⟩ = "high" →
        (assign_tier ⟨"C", "wide", "HIGH", none, none⟩ 0 none (10 / 100)).tier = 2 ∧
        (assign_tier ⟨"C", "wide", "HIGH", none, none⟩ 0 none (10 / 100)).tier_reason
          = "High quality, price target unavailable")) :=
  ⟨Or.inl rfl,
   c3_no_tier1_without_price ⟨"C", "wide", "HIGH", none, none⟩ 0 none (10 / 100) (Or.inl rfl)⟩

/-- One current-pass loop step appends exactly the spec's per-symbol
emissions. -/
theorem current_step_eq (ps : List (String × PrevStock)) (m : List WatchlistMovement)
    (p : String × TierAssignment) :
    current_step ps m p = m ++ spec_current_events ps p := by
  unfold current_step spec_current_events
  by_cases h0 : p.2.tier = 0
  · simp [h0]
  cases hl : ps.lookup p.1 with
  | none => simp [h0, hl]
  | some pd =>
      by_cases hup : p.2.tier < pd.tier.getD 0 <;>
      by_cases hdn : pd.tier.getD 0 < p.2.tier <;>
      by_cases happ : (p.2.approaching_target && !(pd.approaching.getD false)) = true <;>
        simp [h0, hl, hup, hdn, happ, List.append_assoc]

/-- One removed-pass loop step appends exactly the spec's per-symbol
emission. -/
theorem removed_step_eq (current_tiers : List (String × TierAssignment))
    (m : List WatchlistMovement) (q : String × PrevStock) :
    removed_step current_tiers m q = m ++ spec_removed_events current_tiers q := by
  unfold removed_step spec_removed_events
  cases hc : current_tiers.lookup q.1 with
  | none => simp [hc]
  | some t => by_cases ht : t.tier = 0 <;> simp [hc, ht]

/-- The current-pass fold is the concatenation of the spec's per-symbol
emissions, in iteration order. -/
theorem foldl_current_step (ps : List (String × PrevStock)) :
    ∀ (l : List (String × TierAssignment)) (init : List WatchlistMovement),
      l.foldl (current_step ps) init = init ++ l.flatMap (spec_current_events ps) := by
  intro l
  induction l with
  | nil => intro init; simp
  | cons x l ih =>
      intro init
      rw [List.foldl_cons, current_step_eq, ih, List.flatMap_cons, List.append_assoc]

/-- The removed-pass fold is the concatenation of the spec's removed
emissions, in iteration order. -/
theorem foldl_removed_step (cur : List (String × TierAssignment)) :
    ∀ (l : List (String × PrevStock)) (init : List WatchlistMovement),
      l.foldl (removed_step cur) init = init ++ l.flatMap (spec_removed_events cur) := by
  intro l
  induction l with
  | nil => intro init; simp
  | cons x l ih =>
      intro init
      rw [List.foldl_cons, removed_step_eq, ih, List.flatMap_cons, List.append_assoc]

/-- C4: `compute_movements` emits exactly the events the specification
describes — per current symbol with tier > 0: "new" when absent before,
"tier_up"/"tier_down" on a numeric tier change, plus "approaching" when
`approaching_target` is newly true; then "removed" for previous symbols
absent or tier-0 now; ordered as the current-symbol iteration followed
by the removed-symbol iteration. -/
theorem c4_compute_movements_spec (current_tiers : List (String × TierAssignment))
    (previous_state : WatchlistState) :
    compute_movements current_tiers previous_state
      = compute_movements_spec current_tiers previous_state := by
  show List.foldl (removed_step current_tiers)
      (List.foldl (current_step previous_state.stocks) [] current_tiers)
      previous_state.stocks = _
  rw [foldl_current_step, foldl_removed_step, List.nil_append]
  rfl

/-- Weight sum of the recognized rules, cons case. -/
theorem total_weight_cons (x : String × ScoringRule) (l : List (String × ScoringRule)) :
    total_weight (x :: l)
      = (if x.1 ∈ valid_metrics then x.2.weight else 0) + total_weight l := by
  unfold total_weight recognized
  rw [List.filter_cons]
  by_cases h : x.1 ∈ valid_metrics <;> simp [h]

/-- Populated weight sum, cons case. -/
theorem populated_weight_cons (data : String → Option ℚ) (x : String × ScoringRule)
    (l : List (String × ScoringRule)) :
    populated_weight data (x :: l)
      = (if x.1 ∈ valid_metrics ∧ (data x.1).isSome = true then x.2.weight else 0)
        + populated_weight data l := by
  unfold populated_weight recognized
  rw [List.filter_cons]
  by_cases h1 : x.1 ∈ valid_metrics <;>
    by_cases h2 : (data x.1).isSome = true <;>
      simp [h1, h2, List.filter_cons]

/-- `scored_weight` effect of one scoring-loop step. -/
theorem score_stock_step_scored (data : String → Option ℚ) (st : ScoreState)
    (x : String × ScoringRule) :
    (score_stock_step data st x).scored_weight
      = st.scored_weight
        + (if x.1 ∈ valid_metrics ∧ (data x.1).isSome = true then x.2.weight else 0) := by
  unfold score_stock_step
  by_cases h1 : x.1 ∈ valid_metrics
  · cases hd : data x.1 <;> simp [h1, hd]
  · simp [h1]

/-- `total_possible_weight` effect of one scoring-loop step. -/
theorem score_stock_step_tpw (data : String → Option ℚ) (st : ScoreState)
    (x : String × ScoringRule) :
    (score_stock_step data st x).total_possible_weight
      = st.total_possible_weight + (if x.1 ∈ valid_metrics then x.2.weight else 0) := by
  unfold score_stock_step
  by_cases h1 : x.1 ∈ valid_metrics
  · cases hd : data x.1 <;> simp [h1, hd]
  · simp [h1]

/-- The scoring loop accumulates exactly the populated weight into
`scored_weight` and the recognized weight into `total_possible_weight`. -/
theorem score_stock_foldl_weights (data : String → Option ℚ) :
    ∀ (l : List (String × ScoringRule)) (st : ScoreState),
      ((l.foldl (score_stock_step data) st).scored_weight
        = st.scored_weight + populated_weight data l) ∧
      ((l.foldl (score_stock_step data) st).total_possible_weight
        = st.total_possible_weight + total_weight l) := by
  intro l
  induction l with
  | nil => intro st; simp [populated_weight, total_weight, recognized]
  | cons x l ih =>
      intro st
      rw [List.foldl_cons]
      obtain ⟨ihs, ihp⟩ := ih (score_stock_step data st x)
      refine ⟨?_, ?_⟩
      · rw [ihs, score_stock_step_scored, populated_weight_cons]; ring
      · rw [ihp, score_stock_step_tpw, total_weight_cons]; ring

/-- The recognized weight sum is nonnegative for nonnegative weights. -/
theorem total_weight_nonneg (l : List (String × ScoringRule))
    (hw : ∀ p ∈ l, 0 ≤ p.2.weight) : 0 ≤ total_weight l := by
  induction l with
  | nil => simp [total_weight, recognized]
  | cons x l ih =>
      rw [total_weight_cons]
      have hx := hw x (List.mem_cons_self x l)
      have hl := ih (fun p hp => hw p (List.mem_cons_of_mem x hp))
      by_cases h : x.1 ∈ valid_metrics <;> simp [h] <;> linarith

/-- The populated weight sum is nonnegative for nonnegative weights. -/
theorem populated_weight_nonneg (data : String → Option ℚ) (l : List (String × ScoringRule))
    (hw : ∀ p ∈ l, 0 ≤ p.2.weight) : 0 ≤ populated_weight data l := by
  induction l with
  | nil => simp [populated_weight, recognized]
  | cons x l ih =>
      rw [populated_weight_cons]
      have hx := hw x (List.mem_cons_self x l)
      have hl := ih (fun p hp => hw p (List.mem_cons_of_mem x hp))
      by_cases h : x.1 ∈ valid_metrics ∧ (data x.1).isSome = true <;> simp [h] <;> linarith

/-- The populated weight never exceeds the recognized weight for
nonnegative weights. -/
theorem populated_le_total (data : String → Option ℚ) (l : List (String × ScoringRule))
    (hw : ∀ p ∈ l, 0 ≤ p.2.weight) :
    populated_weight data l ≤ total_weight l := by
  induction l with
  | nil => simp [populated_weight, total_weight, recognized]
  | cons x l ih =>
      rw [populated_weight_cons, total_weight_cons]
      have hx := hw x (List.mem_cons_self x l)
      have hl := ih (fun p hp => hw p (List.mem_cons_of_mem x hp))
      by_cases h1 : x.1 ∈ valid_metrics <;>
        by_cases h2 : (data x.1).isSome = true <;>
          simp [h1, h2] <;> linarith

/-- With every recognized metric populated, the populated weight is the
whole recognized weight. -/
theorem populated_weight_eq_total (data : String → Option ℚ)
    (l : List (String × ScoringRule))
    (hall : ∀ p ∈ recognized l, (data p.1).isSome = true) :
    populated_weight data l = total_weight l := by
  unfold populated_weight total_weight
  rw [List.filter_eq_self.mpr hall]

/-- With no recognized metric populated, the populated weight is 0. -/
theorem populated_weight_eq_zero (data : String → Option ℚ)
    (l : List (String × ScoringRule))
    (hnone : ∀ p ∈ recognized l, data p.1 = none) :
    populated_weight data l = 0 := by
  unfold populated_weight
  have h : (recognized l).filter (fun p => (data p.1).isSome) = [] := by
    rw [List.filter_eq_nil_iff]
    intro p hp
    simp [hnone p hp]
  rw [h]
  simp

/-- C1 counterexample: with an empty base scoring dict but a populated
sector override, `score_stock` returns confidence 0, while the claimed
formula over the effective (merged) rule set gives 1/1 = 1. -/
theorem c1_counterexample :
    (score_stock (fun n => if n = "roe" then some (15 / 100) else none)
      ⟨[], [("Tech", [("roe", ⟨15 / 100, 1, some 0, none⟩)])]⟩ "Tech").2 = 0 ∧
    total_weight
      (effective_scoring ⟨[], [("Tech", [("roe", ⟨15 / 100, 1, some 0, none⟩)])]⟩ "Tech") = 1 ∧
    populated_weight (fun n => if n = "roe" then some (15 / 100) else none)
      (effective_scoring ⟨[], [("Tech", [("roe", ⟨15 / 100, 1, some 0, none⟩)])]⟩ "Tech") = 1 := by
  refine ⟨by norm_num [score_stock], ?_, ?_⟩ <;>
    simp [total_weight, populated_weight, effective_scoring, recognized, dict_set, valid_metrics]

/-- C1 (amended): for a non-empty base scoring dict and nonnegative
weights in the effective rule set, the confidence returned by
`score_stock` lies in [0,1], equals populated weight over recognized
weight (0 when the recognized weight is 0), is 0 when no recognized
metric is populated, and is 1 when the recognized weight is positive
and every recognized metric is populated. -/
theorem c1_confidence (data : String → Option ℚ) (criteria : ScreeningCriteria)
    (sector : String)
    (hbase : criteria.scoring ≠ [])
    (hw : ∀ p ∈ effective_scoring criteria sector, 0 ≤ p.2.weight) :
    0 ≤ (score_stock data criteria sector).2 ∧
    (score_stock data criteria sector).2 ≤ 1 ∧
    (score_stock data criteria sector).2
      = populated_weight data (effective_scoring criteria sector)
        / total_weight (effective_scoring criteria sector) ∧
    ((∀ p ∈ recognized (effective_scoring criteria sector), data p.1 = none) →
      (score_stock data criteria sector).2 = 0) ∧
    (total_weight (effective_scoring criteria sector) = 0 →
      (score_stock data criteria sector).2 = 0) ∧
    (0 < total_weight (effective_scoring criteria sector) →
      (∀ p ∈ recognized (effective_scoring criteria sector), (data p.1).isSome = true) →
      (score_stock data criteria sector).2 = 1) := by
  have hfold := score_stock_foldl_weights data (effective_scoring criteria sector) ⟨0, 0, 0⟩
  have hconf : (score_stock data criteria sector).2
      = if 0 < total_weight (effective_scoring criteria sector)
        then populated_weight data (effective_scoring criteria sector)
          / total_weight (effective_scoring criteria sector)
        else 0 := by
    unfold score_stock
    rw [if_neg hbase]
    simp only []
    rw [hfold.1, hfold.2]
    norm_num
  by_cases hpos : 0 < total_weight (effective_scoring criteria sector)
  · rw [hconf, if_pos hpos]
    have hp0 := populated_weight_nonneg data _ hw
    have hple := populated_le_total data _ hw
    refine ⟨div_nonneg hp0 (le_of_lt hpos), (div_le_one hpos).mpr hple, rfl, ?_, ?_, ?_⟩
    · intro hnone
      rw [populated_weight_eq_zero data _ hnone, zero_div]
    · intro h0
      exact absurd h0 (ne_of_gt hpos)
    · intro _ hall
      rw [populated_weight_eq_total data _ hall, div_self (ne_of_gt hpos)]
  · have h0 : total_weight (effective_scoring criteria sector) = 0 :=
      le_antisymm (not_lt.1 hpos) (total_weight_nonneg _ hw)
    rw [hconf, if_neg hpos]
    refine ⟨le_refl 0, by norm_num, ?_, fun _ => rfl, fun _ => rfl, ?_⟩
    · rw [h0, div_zero]
    · intro hp
      exact absurd hp hpos

/-- C1 witness: a concrete singleton rule set with its metric populated
yields confidence 1. -/
theorem c1_confidence_witness :
    (([("roe", ({ ideal := 15 / 100, weight := 2, min := some 0, max := none } : ScoringRule))]
        : List (String × ScoringRule)) ≠ []) ∧
    (score_stock (fun n => if n = "roe" then some (2 / 10) else none)
      ⟨[("roe", { ideal := 15 / 100, weight := 2, min := some 0, max := none })], []⟩ "").2 = 1 :=
  ⟨by simp,
   (c1_confidence (fun n => if n = "roe" then some (2 / 10) else none)
      ⟨[("roe", { ideal := 15 / 100, weight := 2, min := some 0, max := none })], []⟩ ""
      (by simp)
      (by
        intro p hp
        simp only [effective_scoring, if_neg] at hp
        simp at hp
        rw [hp]
        norm_num)).2.2.2.2.2
    (by
      simp [total_weight, effective_scoring, recognized, valid_metrics])
    (by
      intro p hp
      simp [effective_scoring, recognized, valid_metrics] at hp
      rw [hp]
      simp)⟩

/-- C10: scoring a singleton rule set, a `debt_equity` raw value above 5
is scored as the value divided by 100, while every other recognized
metric name is scored at its raw value unchanged. -/
theorem c10_debt_equity_normalization (r : ScoringRule) (v : ℚ) :
    (5 < v →
      (score_stock (fun n => if n = "debt_equity" then some v else none)
        ⟨[("debt_equity", r)], []⟩ "").1
        = compute_metric_score (v / 100) r * r.weight) ∧
    (∀ name, name ∈ valid_metrics → name ≠ "debt_equity" →
      (score_stock (fun n => if n = name then some v else none)
        ⟨[(name, r)], []⟩ "").1
        = compute_metric_score v r * r.weight) := by
  constructor
  · intro hv
    simp [score_stock, effective_scoring, score_stock_step, valid_metrics, hv]
  · intro name hmem hne
    simp [score_stock, effective_scoring, score_stock_step, hmem, hne]

/-- C10 witness: the normalization theorem applied at a raw
`debt_equity` of 250 (scored as 2.5) and a raw `roe` of 250 (scored
unchanged). -/
theorem c10_debt_equity_normalization_witness :
    ((5 : ℚ) < 250) ∧
    (score_stock (fun n => if n = "debt_equity" then some (250 : ℚ) else none)
      ⟨[("debt_equity", { ideal := 1 / 2, weight := 1, min := none, max := some 2 })], []⟩ "").1
      = compute_metric_score ((250 : ℚ) / 100)
          { ideal := 1 / 2, weight := 1, min := none, max := some 2 }
        * ({ ideal := 1 / 2, weight := 1, min := none, max := some 2 } : ScoringRule).weight ∧
    ("roe" ∈ valid_metrics ∧ "roe" ≠ "debt_equity") ∧
    (score_stock (fun n => if n = "roe" then some (250 : ℚ) else none)
      ⟨[("roe", { ideal := 1 / 2, weight := 1, min := none, max := some 2 })], []⟩ "").1
      = compute_metric_score (250 : ℚ)
          { ideal := 1 / 2, weight := 1, min := none, max := some 2 }
        * ({ ideal := 1 / 2, weight := 1, min := none, max := some 2 } : ScoringRule).weight :=
  ⟨by norm_num,
   (c10_debt_equity_normalization
      { ideal := 1 / 2, weight := 1, min := none, max := some 2 } 250).1 (by norm_num),
   ⟨by simp [valid_metrics], by simp⟩,
   (c10_debt_equity_normalization
      { ideal := 1 / 2, weight := 1, min := none, max := some 2 } 250).2 "roe"
      (by simp [valid_metrics]) (by simp)⟩

/-- C5: `start_new_campaign` with a 90-day carry-forward resets the
passed and analyzed sets and makes the new screened set exactly the old
failed symbols whose failure instant is within 90 days of now; in
particular a 10-day-old failure is carried and a 100-day-old one is
dropped. -/
theorem c5_start_new_campaign :
    (∀ (campaign : CampaignState) (now : ℤ) (nq : String) (sym : String),
      (start_new_campaign campaign now nq 90).haiku_passed = [] ∧
      (start_new_campaign campaign now nq 90).analyzed = [] ∧
      (sym ∈ (start_new_campaign campaign now nq 90).haiku_screened ↔
        ∃ t : ℤ, (sym, some t) ∈ campaign.haiku_failed ∧ now - t < 90)) ∧
    "TEN" ∈ (start_new_campaign
      ⟨"2025-Q4", 0, [], [], [("TEN", some 990), ("HUNDRED", some 900)], []⟩
      1000 "2026-Q1" 90).haiku_screened ∧
    "HUNDRED" ∉ (start_new_campaign
      ⟨"2025-Q4", 0, [], [], [("TEN", some 990), ("HUNDRED", some 900)], []⟩
      1000 "2026-Q1" 90).haiku_screened := by
  have hgen : ∀ (campaign : CampaignState) (now : ℤ) (nq : String) (sym : String),
      (start_new_campaign campaign now nq 90).haiku_passed = [] ∧
      (start_new_campaign campaign now nq 90).analyzed = [] ∧
      (sym ∈ (start_new_campaign campaign now nq 90).haiku_screened ↔
        ∃ t : ℤ, (sym, some t) ∈ campaign.haiku_failed ∧ now - t < 90) := by
    intro campaign now nq sym
    refine ⟨rfl, rfl, ?_⟩
    unfold start_new_campaign sort_symbols
    simp only [List.mem_mergeSort, List.mem_map, List.mem_filter]
    constructor
    · rintro ⟨⟨s, ots⟩, ⟨hmem, hkeep⟩, rfl⟩
      cases ots with
      | none => simp at hkeep
      | some t =>
          simp only [decide_eq_true_eq] at hkeep
          exact ⟨t, hmem, by omega⟩
    · rintro ⟨t, hmem, hlt⟩
      refine ⟨(sym, some t), ⟨hmem, ?_⟩, rfl⟩
      simp only [decide_eq_true_eq]
      omega
  refine ⟨hgen, ?_, ?_⟩
  · exact (hgen _ 1000 "2026-Q1" "TEN").2.2.mpr ⟨990, by simp, by omega⟩
  · intro h
    obtain ⟨t, hmem, hlt⟩ := (hgen _ 1000 "2026-Q1" "HUNDRED").2.2.mp h
    simp at hmem
    omega


/-- Failure timestamps survive the encode/decode round trip. -/
theorem decode_ts_encode (o : Option ℤ) : decode_ts (encode_ts o) = o := by
  cases o with
  | none => rfl
  | some t => simp [encode_ts, decode_ts]

/-- Optional rationals survive the encode/decode round trip. -/
theorem as_optq_encode (o : Option ℚ) : as_optq (some (encode_optq o)) = some o := by
  cases o <;> rfl

/-- Integers stored as JSON numbers decode back. -/
theorem as_int_intCast (z : ℤ) : as_int (some (Jv.num (z : ℚ))) = some z := by
  simp [as_int]

/-- String arrays survive the round trip. -/
theorem decode_str_list_encode (l : List String) :
    decode_str_list (l.map Jv.str) = some l := by
  induction l with
  | nil => rfl
  | cons x l ih => simp [decode_str_list, ih]

/-- String arrays read back via `as_str_list`. -/
theorem as_str_list_encode (l : List String) :
    as_str_list (some (Jv.arr (l.map Jv.str))) = some l := by
  simp [as_str_list, decode_str_list_encode]

/-- The campaign sub-document survives the round trip. -/
theorem decode_campaign_encode (c : CampaignState) :
    decode_campaign (encode_campaign c) = some c := by
  simp [decode_campaign, encode_campaign, jv_lookup, List.lookup, as_str,
    as_int_intCast, as_str_list_encode, List.map_map, Function.comp_def,
    decode_ts_encode]

set_option maxHeartbeats 1000000 in
/-- A study entry survives the round trip. -/
theorem decode_study_encode (r : StudyRecord) :
    decode_study (encode_study r) = some r := by
  simp [decode_study, encode_study, jv_lookup, List.lookup, as_str, as_num,
    as_int_intCast, as_optq_encode]

/-- The studies mapping survives the round trip entry by entry. -/
theorem decode_studies_encode (l : List (String × StudyRecord)) :
    decode_studies (l.map (fun p => (p.1, encode_study p.2))) = some l := by
  induction l with
  | nil => rfl
  | cons x l ih => simp [decode_studies, decode_study_encode, ih]

/-- The whole registry document decodes back to itself. -/
theorem decode_registry_save (d : RegistryData) :
    decode_registry (registry_save d) = some d := by
  simp [decode_registry, registry_save, jv_lookup, List.lookup,
    decode_campaign_encode, decode_studies_encode]

/-- C7: saving a registry and loading it back reproduces the campaign
state and the studies mapping. -/
theorem c7_registry_round_trip (d : RegistryData) (now : ℤ) (nq : String) :
    (registry_load (some (registry_save d)) now nq).campaign = d.campaign ∧
    (registry_load (some (registry_save d)) now nq).studies = d.studies := by
  have hv : as_int (jv_lookup (registry_save d) "version") = some 1 := by
    simp [registry_save, jv_lookup, List.lookup, as_int]
  have h : registry_load (some (registry_save d)) now nq = d := by
    unfold registry_load
    simp only []
    rw [hv]
    simp [decode_registry_save]
  rw [h]
  exact ⟨rfl, rfl⟩

end BuffettBot
